import Mathlib

/-!
Shallow embedding of the db-kit resilience core (package `database`):
the structured-error taxonomy (`errors.go`), the exponential-backoff
retry engine (`withRetry`), connection validation (`ValidateConnection`,
`WithValidation`) and the transaction executor (`WithTransaction`).

Machine integers: Go `int` / `time.Duration` are modelled as `Int`
(durations in nanoseconds).  External effects (pings, begin/commit/
rollback, the caller-supplied transactional function, context
cancellation) are supplied as oracle parameters; logger calls are
modelled only where a claim mentions them (as boolean flags).
-/

namespace DbKit

/-- The closed error-code enumeration from `errors.go` (`type ErrorCode string`
with 28 named constants).  One constructor per constant. -/
inductive ErrorCode where
  | connectionFailed
  | connectionTimeout
  | connectionRefused
  | authenticationError
  | invalidCredentials
  | invalidConfig
  | missingConfig
  | migrationFailed
  | migrationNotFound
  | migrationConflict
  | backupFailed
  | restoreFailed
  | invalidBackupFile
  | queryFailed
  | syntaxError
  | constraintViolation
  | insufficientResources
  | tooManyConnections
  | diskFull
  | retryExhausted
  | operationTimeout
  | transactionBegin
  | transactionCommit
  | transactionRollback
  | transactionFailed
  | unknown
  | internal
  | validation
  deriving DecidableEq, Repr

/-- The string value of each `ErrorCode` constant (used by `DBError.Error()`). -/
def ErrorCode.str : ErrorCode → String
  | .connectionFailed => "CONNECTION_FAILED"
  | .connectionTimeout => "CONNECTION_TIMEOUT"
  | .connectionRefused => "CONNECTION_REFUSED"
  | .authenticationError => "AUTHENTICATION_ERROR"
  | .invalidCredentials => "INVALID_CREDENTIALS"
  | .invalidConfig => "INVALID_CONFIG"
  | .missingConfig => "MISSING_CONFIG"
  | .migrationFailed => "MIGRATION_FAILED"
  | .migrationNotFound => "MIGRATION_NOT_FOUND"
  | .migrationConflict => "MIGRATION_CONFLICT"
  | .backupFailed => "BACKUP_FAILED"
  | .restoreFailed => "RESTORE_FAILED"
  | .invalidBackupFile => "INVALID_BACKUP_FILE"
  | .queryFailed => "QUERY_FAILED"
  | .syntaxError => "SYNTAX_ERROR"
  | .constraintViolation => "CONSTRAINT_VIOLATION"
  | .insufficientResources => "INSUFFICIENT_RESOURCES"
  | .tooManyConnections => "TOO_MANY_CONNECTIONS"
  | .diskFull => "DISK_FULL"
  | .retryExhausted => "RETRY_EXHAUSTED"
  | .operationTimeout => "OPERATION_TIMEOUT"
  | .transactionBegin => "TRANSACTION_BEGIN"
  | .transactionCommit => "TRANSACTION_COMMIT"
  | .transactionRollback => "TRANSACTION_ROLLBACK"
  | .transactionFailed => "TRANSACTION_FAILED"
  | .unknown => "UNKNOWN"
  | .internal => "INTERNAL"
  | .validation => "VALIDATION"

/-- `isErrorCodeRetriable` (errors.go:163-176): the closed retriability table. -/
def isErrorCodeRetriable : ErrorCode → Bool
  | .connectionTimeout
  | .connectionRefused
  | .connectionFailed
  | .insufficientResources
  | .tooManyConnections
  | .diskFull
  | .operationTimeout => true
  | _ => false

/-- A context-map value (`map[string]interface{}`): the repository stores
ints and strings in error contexts. -/
inductive CtxVal where
  | int (n : Int)
  | str (s : String)
  deriving DecidableEq, Repr

/-- The syscall errnos `isRetriableError` distinguishes. -/
inductive Errno where
  | econnrefused
  | econnreset
  | etimedout
  | eagain
  | other
  deriving DecidableEq, Repr

/-- `syscall.Errno.Timeout()`: true for EAGAIN/EWOULDBLOCK/ETIMEDOUT; this is
what `(*net.OpError).Timeout()` reports for a syscall cause. -/
def Errno.timeoutFlag : Errno → Bool
  | .etimedout => true
  | .eagain => true
  | _ => false

/-- Go `error` values as the resilience layer can observe them:
`plain` is an `errors.New`/`fmt.Errorf` error (with an optional `%w` wrap);
`db` is `*database.DBError` with its seven fields (errors.go:60-68);
`netTimeout` is a generic `net.Error` with its `Timeout()` flag;
`opError` is a `*net.OpError` with a syscall cause;
`pqError` is a `*pq.Error` with its SQLSTATE code;
`badConn` is `driver.ErrBadConn`; `deadlineExceeded` / `canceled` are the
two context errors. -/
inductive Err where
  | plain (msg : String) (wrapped : Option Err)
  | db (code : ErrorCode) (message operation : String)
       (context : List (String × CtxVal)) (underlying : Option Err)
       (retriable : Bool) (userMessage : String)
  | netTimeout (timeout : Bool) (msg : String)
  | opError (errno : Errno) (msg : String)
  | pqError (code : String) (msg : String)
  | badConn
  | deadlineExceeded
  | canceled
  deriving Repr

/-- `(*DBError).Error()` (errors.go:70-75) extended to every error shape
(`Error()` of the other error kinds). -/
def Err.errorString : Err → String
  | .plain m _ => m
  | .db c m o _ _ _ _ =>
      if o ≠ "" then "[" ++ c.str ++ "] " ++ o ++ ": " ++ m
      else "[" ++ c.str ++ "] " ++ m
  | .netTimeout _ m => m
  | .opError _ m => m
  | .pqError _ m => m
  | .badConn => "driver: bad connection"
  | .deadlineExceeded => "context deadline exceeded"
  | .canceled => "context canceled"

/-- `errors.As(err, &dbErr)`: the first `*DBError` in the unwrap chain. -/
def Err.asDBError : Err → Option Err
  | .db c m o ctx u r um => some (.db c m o ctx u r um)
  | .plain _ (some e) => Err.asDBError e
  | _ => none

/-- `errors.As(err, &netErr)` followed by `netErr.Timeout()`: the `Timeout()`
flag of the first `net.Error` in the unwrap chain (`*net.OpError` and
`context.DeadlineExceeded` both implement `net.Error`; the latter's
`Timeout()` is true). -/
def Err.asNetTimeout : Err → Option Bool
  | .netTimeout t _ => some t
  | .opError e _ => some e.timeoutFlag
  | .deadlineExceeded => some true
  | .plain _ (some e) => Err.asNetTimeout e
  | .db _ _ _ _ (some e) _ _ => Err.asNetTimeout e
  | _ => none

/-- `errors.As(err, &opErr)`: the syscall cause of the first `*net.OpError`
in the unwrap chain. -/
def Err.asOpErrno : Err → Option Errno
  | .opError e _ => some e
  | .plain _ (some e) => Err.asOpErrno e
  | .db _ _ _ _ (some e) _ _ => Err.asOpErrno e
  | _ => none

/-- `errors.As(err, &pqErr)`: the SQLSTATE of the first `*pq.Error` in the
unwrap chain. -/
def Err.asPqCode : Err → Option String
  | .pqError c _ => some c
  | .plain _ (some e) => Err.asPqCode e
  | .db _ _ _ _ (some e) _ _ => Err.asPqCode e
  | _ => none

/-- `errors.Is(err, driver.ErrBadConn)`. -/
def Err.isBadConn : Err → Bool
  | .badConn => true
  | .plain _ (some e) => Err.isBadConn e
  | .db _ _ _ _ (some e) _ _ => Err.isBadConn e
  | _ => false

/-- `errors.Is(err, context.DeadlineExceeded)`. -/
def Err.isDeadlineExceeded : Err → Bool
  | .deadlineExceeded => true
  | .plain _ (some e) => Err.isDeadlineExceeded e
  | .db _ _ _ _ (some e) _ _ => Err.isDeadlineExceeded e
  | _ => false

/-- `pat` occurs as a prefix of `s` (over character lists). -/
def charsPrefix : List Char → List Char → Bool
  | [], _ => true
  | _ :: _, [] => false
  | c :: cs, d :: ds => c = d && charsPrefix cs ds

/-- `pat` occurs somewhere in `s` (over character lists). -/
def charsContains (pat : List Char) : List Char → Bool
  | [] => charsPrefix pat []
  | d :: ds => charsPrefix pat (d :: ds) || charsContains pat ds

/-- `strings.Contains s pat`. -/
def strContains (s pat : String) : Bool :=
  charsContains pat.data s.data

/-- `strings.ToLower` (ASCII suffices for the repository's messages). -/
def strToLower (s : String) : String :=
  String.mk (s.data.map Char.toLower)

/-- The transient-message phrase list from `isRetriableError`
(part_003:445-453). -/
def transientMessages : List String :=
  ["connection refused", "connection reset", "connection timeout",
   "network is unreachable", "temporary failure", "server is not available",
   "database is starting up"]

/-- The PostgreSQL SQLSTATEs `isRetriableError` treats as retriable
(part_003:419-430). -/
def pqRetriableCodes : List String :=
  ["53000", "53100", "53200", "53300",
   "08000", "08003", "08006", "08001", "08004"]

/-- `isRetriableError` (part_003:394-462): the raw-error transience test.
Decision ladder as in the source: a `net.Error` in the chain decides by its
`Timeout()` flag; otherwise `*net.OpError` syscall causes, PostgreSQL
SQLSTATEs, `driver.ErrBadConn`, `context.DeadlineExceeded`, and finally the
case-insensitive substring scan.  (Each non-final guard returns true on a
hit and falls through otherwise, as in the source.)  Note this predicate
never consults the `Retriable` field or category of a `DBError`. -/
def isRetriableError (err : Err) : Bool :=
  match err.asNetTimeout with
  | some t => t
  | none =>
    (match err.asOpErrno with
     | some e => e = Errno.econnrefused || e = Errno.econnreset || e = Errno.etimedout
     | none => false)
    || (match err.asPqCode with
        | some c => pqRetriableCodes.contains c
        | none => false)
    || err.isBadConn
    || err.isDeadlineExceeded
    || transientMessages.any (fun m => strContains (strToLower err.errorString) m)

/-- Map-insert for the context map (`e.Context[key] = value`; keys unique). -/
def ctxInsert (ctx : List (String × CtxVal)) (k : String) (v : CtxVal) :
    List (String × CtxVal) :=
  if ctx.any (fun p => p.1 = k) then
    ctx.map (fun p => if p.1 = k then (k, v) else p)
  else ctx ++ [(k, v)]

/-- `(*DBError).WithOperation` (errors.go:97-100); identity on non-DBError
shapes (in Go the method only exists on `*DBError`). -/
def withOperation (e : Err) (operation : String) : Err :=
  match e with
  | .db c m _ ctx u r um => .db c m operation ctx u r um
  | e => e

/-- `(*DBError).WithContext` (errors.go:89-95). -/
def withContext (e : Err) (k : String) (v : CtxVal) : Err :=
  match e with
  | .db c m o ctx u r um => .db c m o (ctxInsert ctx k v) u r um
  | e => e

/-- `(*DBError).WithUserMessage` (errors.go:102-105). -/
def withUserMessage (e : Err) (message : String) : Err :=
  match e with
  | .db c m o ctx u r _ => .db c m o ctx u r message
  | e => e

/-- `NewDBError` (errors.go:108-115): retriability derived from the code. -/
def NewDBError (code : ErrorCode) (message : String) (underlying : Option Err) : Err :=
  .db code message "" [] underlying (isErrorCodeRetriable code) ""

/-- `NewConnectionError` (errors.go:118-121). -/
def NewConnectionError (message : String) (underlying : Option Err) : Err :=
  withUserMessage (NewDBError .connectionFailed message underlying)
    "Unable to connect to the database. Please check your connection settings."

/-- `NewRetryExhaustedError` (errors.go:154-160). -/
def NewRetryExhaustedError (operation : String) (attempts : Int)
    (underlying : Option Err) : Err :=
  withUserMessage
    (withContext
      (withOperation
        (NewDBError .retryExhausted
          ("operation failed after " ++ toString attempts ++ " attempts")
          underlying)
        operation)
      "attempts" (.int attempts))
    "Operation failed after multiple retry attempts. Please try again later or check your connection."

/-- `WrapError` on a non-nil input (errors.go:184-197): if a `*DBError` is
found in the chain, enhance it in place (override the operation when
non-empty, prefix the message when non-empty); otherwise build a fresh
`DBError` wrapping the input. -/
def wrapErrorSome (e : Err) (code : ErrorCode) (operation message : String) : Err :=
  match e.asDBError with
  | some (.db c m o ctx u r um) =>
      .db c
        (if message ≠ "" then message ++ ": " ++ m else m)
        (if operation ≠ "" then operation else o)
        ctx u r um
  | _ => withOperation (NewDBError code message (some e)) operation

/-- `WrapError` (errors.go:179-198), including the nil short-circuit. -/
def WrapError (err : Option Err) (code : ErrorCode) (operation message : String) :
    Option Err :=
  match err with
  | none => none
  | some e => some (wrapErrorSome e code operation message)

/-- `RetryConfig` (part_003:465-469): attempt count (`int`) and delays
(`time.Duration`, nanoseconds), both signed in Go, hence `Int`. -/
structure RetryConfig where
  attempts : Int
  delay : Int
  maxDelay : Int
  deriving Repr, DecidableEq

/-- The zero-field defaulting at the top of `withRetry` (part_003:479-488):
3 attempts, 100ms base delay, 5s max delay. -/
def applyRetryDefaults (c : RetryConfig) : RetryConfig where
  attempts := if c.attempts = 0 then 3 else c.attempts
  delay := if c.delay = 0 then 100000000 else c.delay
  maxDelay := if c.maxDelay = 0 then 5000000000 else c.maxDelay

/-- The scale of `n` relative to 53 bits: the least `k` with `n / 2^k < 2^53`
(fuel-based for definitional reduction; `fuel = n` always suffices). -/
def f64Exp : Nat → Nat → Nat
  | 0, _ => 0
  | fuel + 1, n => if n < 2 ^ 53 then 0 else f64Exp fuel (n / 2) + 1

/-- Round-to-nearest-even of a natural number to 53 significant bits: the
value of the IEEE-754 `float64` nearest to `n` (exact below `2^53`). -/
def roundF64Nat (n : Nat) : Nat :=
  if n ≤ 2 ^ 53 then n
  else
    let k := f64Exp n n
    let q := n / 2 ^ k
    let r := n % 2 ^ k
    let half := 2 ^ (k - 1)
    if half < r ∨ (r = half ∧ q % 2 = 1) then (q + 1) * 2 ^ k else q * 2 ^ k

/-- Go's `float64(d)` conversion of an `int64`, as an exact integer value. -/
def float64OfInt (n : Int) : Int :=
  if 0 ≤ n then (roundF64Nat n.toNat : Int) else -(roundF64Nat (-n).toNat : Int)

/-- The per-attempt backoff (part_003:522-524):
`delay := time.Duration(float64(cfg.Delay) * math.Pow(2, attempt));
delay = min(delay, cfg.MaxDelay)`.  `math.Pow(2, attempt)` is the exact
power of two and multiplying a float64 by it only shifts the exponent, so
the product is `float64(cfg.Delay) * 2^attempt` exactly; the truncating
`time.Duration` conversion is modelled for in-`int64`-range values. -/
def backoffDelay (cfg : RetryConfig) (attempt : Nat) : Int :=
  min (float64OfInt cfg.delay * 2 ^ attempt) cfg.maxDelay

/-- The outcome of one invocation of a Go function: a normal return
(`none` = nil error) or a panic unwinding with payload `v`. -/
inductive StepResult where
  | normal (r : Option Err)
  | panicked (v : Nat)
  deriving Repr

/-- Observable outcome of a `withRetry` call: its returned value (or a
propagating panic), how many times the operation ran, and the completed
backoff sleeps (nanoseconds, in order). -/
structure RetryResult where
  result : StepResult
  calls : Nat
  sleeps : List Int
  deriving Repr

/-- The loop body of `withRetry` (part_003:490-546).  `remaining` is how
many of the `attempts` iterations are left (the current one included),
`attempt` the zero-based index of the current iteration, `checkIdx` counts
successive `ctx.Done()` consultations (one before the operation, one inside
the backoff `select`), `calls` indexes invocations of `op`, `lastErr` and
`sleeps` the accumulators.  When the loop runs out, the retry-exhausted
error is built (part_003:545). -/
def retryAux (ctx : Nat → Bool) (ctxErr : Err) (cfg : RetryConfig)
    (op : Nat → StepResult) :
    Nat → Nat → Nat → Nat → Option Err → List Int → RetryResult
  | 0, _, _, calls, lastErr, sleeps =>
      ⟨.normal (some (NewRetryExhaustedError "database operation" cfg.attempts lastErr)),
       calls, sleeps⟩
  | remaining + 1, attempt, checkIdx, calls, _lastErr, sleeps =>
      if ctx checkIdx then ⟨.normal (some ctxErr), calls, sleeps⟩
      else
        match op calls with
        | .panicked v => ⟨.panicked v, calls + 1, sleeps⟩
        | .normal none => ⟨.normal none, calls + 1, sleeps⟩
        | .normal (some err) =>
            if ¬ isRetriableError err then ⟨.normal (some err), calls + 1, sleeps⟩
            else if remaining = 0 then
              -- last attempt: no sleep, fall through to exhaustion
              retryAux ctx ctxErr cfg op remaining (attempt + 1) (checkIdx + 1)
                (calls + 1) (some err) sleeps
            else
              let delay := backoffDelay cfg attempt
              if ctx (checkIdx + 1) then ⟨.normal (some ctxErr), calls + 1, sleeps⟩
              else
                retryAux ctx ctxErr cfg op remaining (attempt + 1) (checkIdx + 2)
                  (calls + 1) (some err) (sleeps ++ [delay])

/-- `(*DB).withRetry` (part_003:472-546).  `cfg` carries the three retry
fields of the handle's `Config`; `ctx k` is whether the context is observed
cancelled at the k-th check point; `ctxErr` is `ctx.Err()`; `op` gives the
outcome of each invocation of the operation.  A panic in `op` unwinds
through the loop (the source installs no recover here). -/
def withRetry (ctx : Nat → Bool) (ctxErr : Err) (cfg : RetryConfig)
    (op : Nat → StepResult) : RetryResult :=
  let eff := applyRetryDefaults cfg
  retryAux ctx ctxErr eff op eff.attempts.toNat 0 0 0 none []

/-- `(*DB).ValidateConnection` (part_003:302-328) with the three I/O
sub-steps as oracles: `ping1` the first no-retry ping, `recon` the result
of `reconnect()` (already a `NewConnectionError` when it fails,
part_003:338-344), `ping2` the confirming ping after reconnection. -/
def ValidateConnection (ping1 recon ping2 : Option Err) : Option Err :=
  match ping1 with
  | none => none
  | some _ =>
    match recon with
    | some e =>
        some (withOperation
          (NewConnectionError "failed to reconnect to database" (some e))
          "validate_connection")
    | none =>
      match ping2 with
      | none => none
      | some e =>
          some (withOperation
            (NewConnectionError "database still unreachable after reconnection" (some e))
            "validate_connection")

/-- `(*DB).WithValidation` (part_003:372-384): validate, then run the
operation through `withRetry`; a validation failure is wrapped with the
connection-failed category, an operation failure with the
operation-timeout category.  Panics propagate (no recover). -/
def WithValidation (ctx : Nat → Bool) (ctxErr : Err) (cfg : RetryConfig)
    (ping1 recon ping2 : Option Err) (op : Nat → StepResult) : RetryResult :=
  match ValidateConnection ping1 recon ping2 with
  | some e =>
      ⟨.normal (WrapError (some e) .connectionFailed "with_validation"
          "connection validation failed"), 0, []⟩
  | none =>
    let r := withRetry ctx ctxErr cfg op
    match r.result with
    | .normal (some e) =>
        { r with result := .normal (WrapError (some e) .operationTimeout
            "with_validation" "operation failed after validation") }
    | _ => r

/-- What the caller-supplied `TransactionFunc` does when invoked. -/
inductive FnOutcome where
  | ret (r : Option Err)
  | panics (v : Nat)
  deriving Repr

/-- The oracle for one transactional attempt, in source order:
`validate` = `ValidateConnection`'s result, `beginTx` = `BeginTxx`'s error,
`fn` = the caller function's behaviour, `rollback`/`commit` = the results
of `tx.Rollback()` / `tx.Commit()` when reached. -/
structure TxEnv where
  validate : Option Err
  beginTx : Option Err
  fn : FnOutcome
  rollback : Option Err
  commit : Option Err

/-- Observable outcome of one `WithTransaction` attempt (the closure passed
to `withRetry`, errors_test.go:351-399): its step result, whether
`tx.Rollback()` was invoked, whether `tx.Commit()` succeeded, and whether a
rollback failure was logged (the only place the rollback error flows). -/
structure TxAttemptOut where
  result : StepResult
  rolledBack : Bool
  committed : Bool
  rollbackFailureLogged : Bool
  deriving Repr

/-- One attempt of `WithTransaction`'s transactional closure
(errors_test.go:351-399): validate → begin → run `fn` (with the deferred
panic handler: roll back, log a failing rollback, re-panic with the
original value) → on an error from `fn`, roll back (logging a failing
rollback, returning the wrapped original error) → commit.  The rollback
error is never part of the returned value. -/
def txAttempt (env : TxEnv) : TxAttemptOut :=
  match env.validate with
  | some e =>
      ⟨.normal (WrapError (some e) .connectionFailed "with_transaction"
          "connection validation failed before transaction"), false, false, false⟩
  | none =>
    match env.beginTx with
    | some e =>
        ⟨.normal (WrapError (some e) .transactionBegin "with_transaction"
            "failed to begin transaction"), false, false, false⟩
    | none =>
      match env.fn with
      | .panics v => ⟨.panicked v, true, false, env.rollback.isSome⟩
      | .ret (some e) =>
          ⟨.normal (WrapError (some e) .transactionFailed "with_transaction"
              "transaction function failed"), true, false, env.rollback.isSome⟩
      | .ret none =>
        match env.commit with
        | some e =>
            ⟨.normal (WrapError (some e) .transactionCommit "with_transaction"
                "failed to commit transaction"), false, false, false⟩
        | none => ⟨.normal none, false, true, false⟩

/-- `(*DB).WithTransaction` (errors_test.go:350-400): the whole attempt is
the unit passed to `withRetry`; `env i` is the oracle for the i-th attempt.
Panics unwind through the retry loop unchanged. -/
def WithTransaction (ctx : Nat → Bool) (ctxErr : Err) (cfg : RetryConfig)
    (env : Nat → TxEnv) : RetryResult :=
  withRetry ctx ctxErr cfg (fun i => (txAttempt (env i)).result)

/-- The category of a step result's error, when there is one (the `Code`
field of a returned `*DBError`). -/
def stepErrCode : StepResult → Option ErrorCode
  | .normal (some (.db c _ _ _ _ _ _)) => some c
  | _ => none

/-! ### Helper lemmas about the retry loop -/

/-- After defaulting, a non-negative configured attempt count yields at
least one loop iteration. -/
theorem effAttempts_pos (cfg : RetryConfig) (h0 : 0 ≤ cfg.attempts) :
    ∃ k, (applyRetryDefaults cfg).attempts.toNat = k + 1 := by
  by_cases h : cfg.attempts = 0
  · exact ⟨2, by simp [applyRetryDefaults, h]⟩
  · have h1 : 0 < cfg.attempts := lt_of_le_of_ne h0 (Ne.symm h)
    have h2 : (applyRetryDefaults cfg).attempts = cfg.attempts := by
      simp [applyRetryDefaults, h]
    refine ⟨cfg.attempts.toNat - 1, ?_⟩
    rw [h2]
    omega

/-- First-attempt short-circuit of the retry loop on a non-retriable
failure: one invocation, the exact error returned, no sleeps. -/
theorem withRetry_first_nonretriable (ctx : Nat → Bool) (ctxErr : Err)
    (cfg : RetryConfig) (op : Nat → StepResult) (e : Err)
    (hc : ctx 0 = false) (h0 : 0 ≤ cfg.attempts)
    (hop : op 0 = .normal (some e)) (hnr : isRetriableError e = false) :
    withRetry ctx ctxErr cfg op = ⟨.normal (some e), 1, []⟩ := by
  obtain ⟨k, hk⟩ := effAttempts_pos cfg h0
  show retryAux ctx ctxErr (applyRetryDefaults cfg) op
    (applyRetryDefaults cfg).attempts.toNat 0 0 0 none [] = _
  rw [hk, retryAux, hc, hop]
  simp [hnr]

/-- A panic in the first invocation unwinds straight through the loop. -/
theorem withRetry_first_panicked (ctx : Nat → Bool) (ctxErr : Err)
    (cfg : RetryConfig) (op : Nat → StepResult) (v : Nat)
    (hc : ctx 0 = false) (h0 : 0 ≤ cfg.attempts)
    (hop : op 0 = .panicked v) :
    withRetry ctx ctxErr cfg op = ⟨.panicked v, 1, []⟩ := by
  obtain ⟨k, hk⟩ := effAttempts_pos cfg h0
  show retryAux ctx ctxErr (applyRetryDefaults cfg) op
    (applyRetryDefaults cfg).attempts.toNat 0 0 0 none [] = _
  rw [hk, retryAux, hc, hop]
  simp

/-- Full behaviour of the loop when the context is never cancelled and
every invocation fails retriably: it runs all remaining iterations,
sleeps the computed backoff between consecutive ones (never after the
last), and exhausts wrapping the last error. -/
theorem retryAux_allFail (ctx : Nat → Bool) (ctxErr : Err) (cfg : RetryConfig)
    (op : Nat → StepResult) (es : Nat → Err)
    (hctx : ∀ k, ctx k = false)
    (hop : ∀ i, op i = .normal (some (es i)))
    (hret : ∀ i, isRetriableError (es i) = true) :
    ∀ remaining attempt checkIdx calls lastErr sleeps,
      retryAux ctx ctxErr cfg op remaining attempt checkIdx calls lastErr sleeps =
        ⟨.normal (some (NewRetryExhaustedError "database operation" cfg.attempts
            (match remaining with
             | 0 => lastErr
             | r + 1 => some (es (calls + r))))),
         calls + remaining,
         sleeps ++ (List.range (remaining - 1)).map
           (fun j => backoffDelay cfg (attempt + j))⟩ := by
  intro remaining
  induction remaining with
  | zero =>
    intro attempt checkIdx calls lastErr sleeps
    simp [retryAux]
  | succ r ih =>
    intro attempt checkIdx calls lastErr sleeps
    rw [retryAux, hctx checkIdx, hop calls]
    simp only [hret calls, not_true, if_false, Bool.false_eq_true,
      not_false_iff, if_true]
    cases r with
    | zero =>
      rw [if_pos rfl, ih]
      simp
    | succ r' =>
      rw [if_neg (Nat.succ_ne_zero r'), hctx (checkIdx + 1)]
      simp only [Bool.false_eq_true, if_false]
      rw [ih]
      simp only [RetryResult.mk.injEq]
      refine ⟨?_, by omega, ?_⟩
      · have harith : calls + 1 + r' = calls + (r' + 1) := by omega
        simp [harith]
      · rw [List.append_assoc]
        refine congrArg _ ?_
        simp only [Nat.add_sub_cancel, List.range_succ_eq_map,
          List.map_cons, List.map_map, Nat.add_zero, List.singleton_append]
        refine congrArg _ ?_
        refine List.map_congr_left ?_
        intro j _
        simp only [Function.comp_apply]
        refine congrArg _ ?_
        omega

/-! ### Claims -/

/-- Claim C3: the retriability predicate over the closed category
enumeration returns true exactly for connection-failed,
connection-timeout, connection-refused, insufficient-resources,
too-many-connections, disk-full and operation-timeout, and false for every
other category. -/
theorem retriable_categories :
    ∀ c : ErrorCode, isErrorCodeRetriable c = true ↔
      (c = .connectionFailed ∨ c = .connectionTimeout ∨ c = .connectionRefused ∨
       c = .insufficientResources ∨ c = .tooManyConnections ∨ c = .diskFull ∨
       c = .operationTimeout) := by
  intro c
  cases c <;> decide

/-- Claim C4, counterexample: the retry engine decides retriability with the
raw-error test `isRetriableError`, never with the structured category or the
`Retriable` flag.  A structured error of the non-retriable query-failed
category (with `Retriable = false`) wrapping `driver.ErrBadConn` is retried:
with a two-attempt budget the operation is invoked twice, not exactly
once, and the returned error is not the operation's error. -/
theorem retry_category_not_consulted :
    (withRetry (fun _ => false) .canceled ⟨2, 1, 10⟩
        (fun _ => .normal (some (.db .queryFailed "query failed" "" []
          (some .badConn) false "")))).calls = 2
    ∧ (2 : Nat) ≠ 1
    ∧ isErrorCodeRetriable .queryFailed = false := by
  refine ⟨rfl, by decide, by decide⟩

/-- Claim C4 (amended): when the first invocation returns an error that the
engine's transient-error test `isRetriableError` classifies as
non-retriable, the operation is invoked exactly once, that exact error
value is returned unchanged and no backoff sleep happens.  (The structured
category's retriability is not consulted; a non-retriable category is
terminal on first occurrence only when its error chain also carries no
transient markers.) -/
theorem retry_nonretriable_first_attempt (ctx : Nat → Bool) (ctxErr : Err)
    (cfg : RetryConfig) (op : Nat → StepResult) (e : Err)
    (hc : ctx 0 = false) (h0 : 0 ≤ cfg.attempts)
    (hop : op 0 = .normal (some e)) (hnr : isRetriableError e = false) :
    withRetry ctx ctxErr cfg op = ⟨.normal (some e), 1, []⟩ :=
  withRetry_first_nonretriable ctx ctxErr cfg op e hc h0 hop hnr

/-- Witness for C4's amended theorem at a concrete input. -/
theorem retry_nonretriable_first_attempt_witness :
    withRetry (fun _ => false) .canceled ⟨3, 100, 1000⟩
        (fun _ => .normal (some (.plain "boom" none)))
      = ⟨.normal (some (.plain "boom" none)), 1, []⟩ :=
  retry_nonretriable_first_attempt (fun _ => false) .canceled ⟨3, 100, 1000⟩
    (fun _ => .normal (some (.plain "boom" none))) (.plain "boom" none)
    rfl (by decide) rfl (by decide)

/-- Claim C5: when every invocation fails with an error the engine
classifies retriable and the context is never cancelled, the engine
invokes the operation exactly the (defaulted) attempt-budget number of
times and returns the retry-exhausted structured error naming the
operation (`"database operation"`), recording the attempt budget both in
its message and its `attempts` context entry, and wrapping the last
observed error. -/
theorem retry_exhausted_after_budget (ctx : Nat → Bool) (ctxErr : Err)
    (cfg : RetryConfig) (op : Nat → StepResult) (es : Nat → Err)
    (hctx : ∀ k, ctx k = false)
    (hop : ∀ i, op i = .normal (some (es i)))
    (hret : ∀ i, isRetriableError (es i) = true)
    (h0 : 0 ≤ cfg.attempts) :
    (withRetry ctx ctxErr cfg op).result
      = .normal (some (NewRetryExhaustedError "database operation"
          (applyRetryDefaults cfg).attempts
          (some (es ((applyRetryDefaults cfg).attempts.toNat - 1)))))
    ∧ (withRetry ctx ctxErr cfg op).calls
      = (applyRetryDefaults cfg).attempts.toNat := by
  obtain ⟨k, hk⟩ := effAttempts_pos cfg h0
  have h := retryAux_allFail ctx ctxErr (applyRetryDefaults cfg) op es
    hctx hop hret ((applyRetryDefaults cfg).attempts.toNat) 0 0 0 none []
  have hw : withRetry ctx ctxErr cfg op
      = retryAux ctx ctxErr (applyRetryDefaults cfg) op
          ((applyRetryDefaults cfg).attempts.toNat) 0 0 0 none [] := rfl
  rw [hw, h, hk]
  simp

/-- Witness for C5 at a concrete input (two configured attempts, a
`driver.ErrBadConn` failure on each). -/
theorem retry_exhausted_after_budget_witness :
    (withRetry (fun _ => false) .canceled ⟨2, 1, 10⟩
        (fun _ => .normal (some .badConn))).result
      = .normal (some (NewRetryExhaustedError "database operation" 2 (some .badConn)))
    ∧ (withRetry (fun _ => false) .canceled ⟨2, 1, 10⟩
        (fun _ => .normal (some .badConn))).calls = 2 := by
  have h := retry_exhausted_after_budget (fun _ => false) .canceled ⟨2, 1, 10⟩
    (fun _ => .normal (some .badConn)) (fun _ => .badConn)
    (fun _ => rfl) (fun _ => rfl) (fun _ => rfl) (by decide)
  have he : applyRetryDefaults ⟨2, 1, 10⟩ = ⟨2, 1, 10⟩ := by decide
  rw [he] at h
  simpa using h

/-- Claim C6, counterexample: the engine computes the backoff in `float64`,
so for a base delay of `2^53 + 1` nanoseconds the sleep before the second
attempt is `2^53` (the nearest float64), not
`min(base_delay * 2^0, max_delay) = 2^53 + 1` as the claim states for all
policies. -/
theorem backoff_float64_rounding_counterexample :
    (withRetry (fun _ => false) .canceled ⟨2, 9007199254740993, 1152921504606846976⟩
        (fun _ => .normal (some .badConn))).sleeps = [9007199254740992]
    ∧ min ((9007199254740993 : Int) * 2 ^ 0) 1152921504606846976 = 9007199254740993
    ∧ (9007199254740992 : Int) ≠ 9007199254740993 := by
  refine ⟨rfl, by decide, by decide⟩

/-- Claim C6 (amended): provided the (defaulted) base delay is
non-negative and below `2^53` nanoseconds — the range where the engine's
float64 backoff arithmetic is exact — a run that fails retriably on every
attempt sleeps exactly `min(base_delay * 2^i, max_delay)` before retry
attempt `i + 1` (zero-based `i`) and performs no sleep after the final
attempt (one fewer sleeps than attempts); and every zero policy field is
replaced by its default: 3 attempts, 100ms base delay, 5s max delay. -/
theorem retry_backoff_schedule (ctx : Nat → Bool) (ctxErr : Err)
    (cfg : RetryConfig) (op : Nat → StepResult) (es : Nat → Err)
    (hctx : ∀ k, ctx k = false)
    (hop : ∀ i, op i = .normal (some (es i)))
    (hret : ∀ i, isRetriableError (es i) = true)
    (hd0 : 0 ≤ cfg.delay) (hd : cfg.delay < 2 ^ 53) :
    (withRetry ctx ctxErr cfg op).sleeps
      = (List.range ((applyRetryDefaults cfg).attempts.toNat - 1)).map
          (fun i => min ((applyRetryDefaults cfg).delay * 2 ^ i)
            (applyRetryDefaults cfg).maxDelay)
    ∧ (cfg.attempts = 0 → (applyRetryDefaults cfg).attempts = 3)
    ∧ (cfg.delay = 0 → (applyRetryDefaults cfg).delay = 100000000)
    ∧ (cfg.maxDelay = 0 → (applyRetryDefaults cfg).maxDelay = 5000000000) := by
  have hde0 : 0 ≤ (applyRetryDefaults cfg).delay := by
    by_cases h : cfg.delay = 0 <;> simp [applyRetryDefaults, h, hd0]
  have hde : (applyRetryDefaults cfg).delay < 2 ^ 53 := by
    by_cases h : cfg.delay = 0
    · simp [applyRetryDefaults, h]
    · simpa [applyRetryDefaults, h] using hd
  have hf : float64OfInt (applyRetryDefaults cfg).delay
      = (applyRetryDefaults cfg).delay := by
    rw [float64OfInt, if_pos hde0, roundF64Nat]
    have hn : (applyRetryDefaults cfg).delay.toNat ≤ 2 ^ 53 := by omega
    rw [if_pos hn]
    omega
  have hb : ∀ i, backoffDelay (applyRetryDefaults cfg) i
      = min ((applyRetryDefaults cfg).delay * 2 ^ i)
          (applyRetryDefaults cfg).maxDelay := by
    intro i
    rw [backoffDelay, hf]
  have h := retryAux_allFail ctx ctxErr (applyRetryDefaults cfg) op es
    hctx hop hret ((applyRetryDefaults cfg).attempts.toNat) 0 0 0 none []
  have hw : withRetry ctx ctxErr cfg op
      = retryAux ctx ctxErr (applyRetryDefaults cfg) op
          ((applyRetryDefaults cfg).attempts.toNat) 0 0 0 none [] := rfl
  refine ⟨?_, fun h3 => by simp [applyRetryDefaults, h3],
    fun h3 => by simp [applyRetryDefaults, h3],
    fun h3 => by simp [applyRetryDefaults, h3]⟩
  rw [hw, h]
  simp only [List.nil_append]
  refine List.map_congr_left ?_
  intro j _
  rw [Nat.zero_add, hb j]

/-- Witness for C6's amended theorem at the all-zero policy: defaults are
applied and the two sleeps are 100ms and 200ms. -/
theorem retry_backoff_schedule_witness :
    (withRetry (fun _ => false) .canceled ⟨0, 0, 0⟩
        (fun _ => .normal (some .badConn))).sleeps = [100000000, 200000000]
    ∧ applyRetryDefaults ⟨0, 0, 0⟩ = ⟨3, 100000000, 5000000000⟩ := by
  have h := retry_backoff_schedule (fun _ => false) .canceled ⟨0, 0, 0⟩
    (fun _ => .normal (some .badConn)) (fun _ => .badConn)
    (fun _ => rfl) (fun _ => rfl) (fun _ => rfl)
    (by decide) (by decide)
  have he : applyRetryDefaults ⟨0, 0, 0⟩ = ⟨3, 100000000, 5000000000⟩ := by decide
  refine ⟨?_, he⟩
  rw [h.1, he]
  decide

/-- Claim C7: a context already cancelled at the first check point makes
the engine return the cancellation error with the operation never invoked
(and no sleeps). -/
theorem retry_cancelled_before_first_attempt (ctx : Nat → Bool) (ctxErr : Err)
    (cfg : RetryConfig) (op : Nat → StepResult)
    (hc : ctx 0 = true) (h0 : 0 ≤ cfg.attempts) :
    withRetry ctx ctxErr cfg op = ⟨.normal (some ctxErr), 0, []⟩ := by
  obtain ⟨k, hk⟩ := effAttempts_pos cfg h0
  show retryAux ctx ctxErr (applyRetryDefaults cfg) op
    (applyRetryDefaults cfg).attempts.toNat 0 0 0 none [] = _
  rw [hk, retryAux, hc]
  simp

/-- Witness for C7 at a concrete input. -/
theorem retry_cancelled_before_first_attempt_witness :
    withRetry (fun _ => true) .canceled ⟨0, 0, 0⟩
        (fun _ => .normal (some .badConn))
      = ⟨.normal (some .canceled), 0, []⟩ :=
  retry_cancelled_before_first_attempt (fun _ => true) .canceled ⟨0, 0, 0⟩
    (fun _ => .normal (some .badConn)) rfl (by decide)

/-- Helper: `wrapErrorSome` on a direct `*DBError` input. -/
theorem wrapErrorSome_on_db (c : ErrorCode) (m o : String)
    (ctx' : List (String × CtxVal)) (u : Option Err) (r : Bool) (um : String)
    (code : ErrorCode) (op msg : String) :
    wrapErrorSome (.db c m o ctx' u r um) code op msg
      = .db c (if msg ≠ "" then msg ++ ": " ++ m else m)
          (if op ≠ "" then op else o) ctx' u r um := rfl

/-- Claim C8, counterexample: wrapping an existing structured error with an
empty new message leaves the message unchanged; it does not become
`"<new message>: <original message>"` (which for an empty new message would
be `": original message"`). -/
theorem wrap_empty_message_counterexample :
    WrapError (some (.db .migrationFailed "original message" "" [] none false ""))
        .connectionFailed "new_operation" ""
      = some (.db .migrationFailed "original message" "new_operation" [] none false "")
    ∧ "original message" ≠ "" ++ ": " ++ "original message" := by
  refine ⟨rfl, by decide⟩

/-- Claim C8 (amended): for a non-empty new message, wrapping an existing
structured error enhances it in place: the wrapped cause (and every other
field except operation and message) is unchanged and still reachable
through unwrap, the resulting message is `"<new message>: <original
message>"`, and the operation is overridden exactly when a non-empty
operation is given. -/
theorem wrap_enhances_structured_error (c : ErrorCode) (m o : String)
    (ctx' : List (String × CtxVal)) (u : Option Err) (r : Bool) (um : String)
    (code : ErrorCode) (op msg : String) (hmsg : msg ≠ "") :
    WrapError (some (.db c m o ctx' u r um)) code op msg
      = some (.db c (msg ++ ": " ++ m) (if op ≠ "" then op else o) ctx' u r um) := by
  have h := wrapErrorSome_on_db c m o ctx' u r um code op msg
  rw [if_pos hmsg] at h
  simpa [WrapError] using h

/-- Witness for C8's amended theorem at a concrete input. -/
theorem wrap_enhances_structured_error_witness :
    WrapError (some (.db .migrationFailed "original message" "" [] none false ""))
        .connectionFailed "new_operation" "wrapped message"
      = some (.db .migrationFailed "wrapped message: original message"
          "new_operation" [] none false "") := by
  have h := wrap_enhances_structured_error .migrationFailed "original message" ""
    [] none false "" .connectionFailed "new_operation" "wrapped message" (by decide)
  simpa using h

/-- Claim C10: enhancing an existing structured error changes at most its
operation and message: category code, retriability flag, wrapped
underlying error, context map and user-facing message are returned
unchanged; an empty new message leaves the message unchanged (no
prefixing), an empty operation leaves the operation unchanged. -/
theorem wrap_structured_frame (c : ErrorCode) (m o : String)
    (ctx' : List (String × CtxVal)) (u : Option Err) (r : Bool) (um : String)
    (code : ErrorCode) (op msg : String) :
    WrapError (some (.db c m o ctx' u r um)) code op msg
      = some (.db c (if msg = "" then m else msg ++ ": " ++ m)
          (if op = "" then o else op) ctx' u r um) := by
  have h := wrapErrorSome_on_db c m o ctx' u r um code op msg
  simp only [WrapError, h, ne_eq, ite_not]

/-- Claim C9, counterexample: a `WithValidation` call whose validation
succeeds but whose retried operation fails with a plain (unstructured,
non-retriable) error surfaces the operation-timeout category, not the
connection-failed category the claim promises for every failing call. -/
theorem with_validation_category_counterexample :
    stepErrCode (WithValidation (fun _ => false) .canceled ⟨1, 1, 1⟩ none none none
        (fun _ => .normal (some (.plain "boom" none)))).result
      = some .operationTimeout
    ∧ ErrorCode.operationTimeout ≠ ErrorCode.connectionFailed := by
  refine ⟨rfl, by decide⟩

/-- Claim C9 (amended): a failure of the connection-validation step is
surfaced under the connection-failed category; a failure of the
subsequently retried operation whose terminal error is not already a
structured error is surfaced under the operation-timeout category instead
(an already-structured operation error keeps its own category). -/
theorem with_validation_categories (ctx : Nat → Bool) (ctxErr : Err)
    (cfg : RetryConfig) (op : Nat → StepResult) (ping1 reconn ping2 : Option Err) :
    (∀ v, ValidateConnection ping1 reconn ping2 = some v →
      stepErrCode (WithValidation ctx ctxErr cfg ping1 reconn ping2 op).result
        = some .connectionFailed)
    ∧ (∀ e, ValidateConnection ping1 reconn ping2 = none →
      (withRetry ctx ctxErr cfg op).result = .normal (some e) →
      e.asDBError = none →
      stepErrCode (WithValidation ctx ctxErr cfg ping1 reconn ping2 op).result
        = some .operationTimeout) := by
  constructor
  · intro v hv
    have hshape : ∃ msg u, v = .db .connectionFailed msg "validate_connection" [] u true
        "Unable to connect to the database. Please check your connection settings." := by
      cases ping1 with
      | none => simp [ValidateConnection] at hv
      | some p1e =>
        cases reconn with
        | some re =>
          refine ⟨"failed to reconnect to database", some re, ?_⟩
          simpa [ValidateConnection] using hv.symm
        | none =>
          cases ping2 with
          | none => simp [ValidateConnection] at hv
          | some p2e =>
            refine ⟨"database still unreachable after reconnection", some p2e, ?_⟩
            simpa [ValidateConnection] using hv.symm
    obtain ⟨msg, u, hvs⟩ := hshape
    unfold WithValidation
    rw [hv, hvs]
    rfl
  · intro e hnone hr hdb
    unfold WithValidation
    rw [hnone]
    simp only [hr]
    simp only [WrapError, wrapErrorSome, hdb]
    rfl

/-- Witness for C9's amended theorem: a failing reconnection surfaces
connection-failed; a failing plain operation surfaces operation-timeout. -/
theorem with_validation_categories_witness :
    stepErrCode (WithValidation (fun _ => false) .canceled ⟨1, 1, 1⟩
        (some (.plain "down" none)) (some (.plain "still down" none)) none
        (fun _ => .normal none)).result = some .connectionFailed
    ∧ stepErrCode (WithValidation (fun _ => false) .canceled ⟨1, 1, 1⟩ none none none
        (fun _ => .normal (some (.plain "boom" none)))).result
      = some .operationTimeout := by
  refine ⟨?_, ?_⟩
  · exact (with_validation_categories (fun _ => false) .canceled ⟨1, 1, 1⟩
      (fun _ => .normal none) (some (.plain "down" none))
      (some (.plain "still down" none)) none).1 _ rfl
  · exact (with_validation_categories (fun _ => false) .canceled ⟨1, 1, 1⟩
      (fun _ => .normal (some (.plain "boom" none))) none none none).2
      (.plain "boom" none) rfl rfl rfl

/-- Claim C1, counterexample: when the caller's function returns an error
that is already a structured error (here of the syntax-error category),
`WithTransaction` returns it enhanced in place with its own category
preserved — the returned error does not carry the transaction-failed
category the claim promises. -/
theorem transaction_error_category_counterexample :
    stepErrCode (WithTransaction (fun _ => false) .canceled ⟨1, 1, 1⟩
        (fun _ => ⟨none, none,
          .ret (some (.db .syntaxError "orig" "" [] none false "")),
          some (.plain "rollback failed" none), none⟩)).result
      = some .syntaxError
    ∧ ErrorCode.syntaxError ≠ ErrorCode.transactionFailed := by
  refine ⟨rfl, by decide⟩

/-- Claim C1 (amended): when the caller's function returns a non-nil error
`e` (validation and begin having succeeded), the transaction is rolled
back and, provided the wrapped failure is not engine-retriable (so no
further attempt runs), the call returns `e` passed through the
transaction-failed wrap — a fresh transaction-failed structured error
wrapping `e` when `e` is not already structured, or `e` enhanced in place
(its own category preserved) otherwise.  A failing rollback is only
logged: the conclusion holds for every rollback outcome `rb`, so the
returned error is always derived from `e`, never from the rollback
failure. -/
theorem transaction_error_rollback_return (ctx : Nat → Bool) (ctxErr : Err)
    (cfg : RetryConfig) (e : Err) (rb cm : Option Err)
    (hc : ctx 0 = false) (h0 : 0 ≤ cfg.attempts)
    (hnr : isRetriableError (wrapErrorSome e .transactionFailed
      "with_transaction" "transaction function failed") = false) :
    (WithTransaction ctx ctxErr cfg
        (fun _ => ⟨none, none, .ret (some e), rb, cm⟩)).result
      = .normal (some (wrapErrorSome e .transactionFailed
          "with_transaction" "transaction function failed"))
    ∧ (txAttempt ⟨none, none, .ret (some e), rb, cm⟩).rolledBack = true
    ∧ (txAttempt ⟨none, none, .ret (some e), rb, cm⟩).rollbackFailureLogged
      = rb.isSome := by
  have hop : (fun i => (txAttempt ((fun _ : Nat =>
      (⟨none, none, .ret (some e), rb, cm⟩ : TxEnv)) i)).result) 0
      = .normal (some (wrapErrorSome e .transactionFailed
          "with_transaction" "transaction function failed")) := rfl
  have h := withRetry_first_nonretriable ctx ctxErr cfg
    (fun i => (txAttempt ((fun _ : Nat =>
      (⟨none, none, .ret (some e), rb, cm⟩ : TxEnv)) i)).result)
    (wrapErrorSome e .transactionFailed "with_transaction"
      "transaction function failed") hc h0 hop hnr
  refine ⟨?_, rfl, rfl⟩
  show (withRetry ctx ctxErr cfg _).result = _
  rw [h]

/-- Witness for C1's amended theorem: a plain caller error with a failing
rollback; the returned error is the fresh transaction-failed wrap of the
caller's error. -/
theorem transaction_error_rollback_return_witness :
    (WithTransaction (fun _ => false) .canceled ⟨1, 1, 1⟩
        (fun _ => ⟨none, none, .ret (some (.plain "boom" none)),
          some (.plain "rollback failed" none), none⟩)).result
      = .normal (some (.db .transactionFailed "transaction function failed"
          "with_transaction" [] (some (.plain "boom" none)) false ""))
    ∧ (txAttempt ⟨none, none, .ret (some (.plain "boom" none)),
        some (.plain "rollback failed" none), none⟩).rolledBack = true := by
  have h := transaction_error_rollback_return (fun _ => false) .canceled ⟨1, 1, 1⟩
    (.plain "boom" none) (some (.plain "rollback failed" none)) none
    rfl (by decide) (by decide)
  exact ⟨h.1, h.2.1⟩

/-- Claim C2: when the caller's function panics (validation and begin
having succeeded), the deferred handler rolls the transaction back
(logging a rollback failure if any — the conclusion holds for every
rollback outcome `rb`) and the original panic value propagates unchanged
out of `WithTransaction`: it is never swallowed, never converted into an
error return, and never retried. -/
theorem transaction_panic_rollback_repropagate (ctx : Nat → Bool) (ctxErr : Err)
    (cfg : RetryConfig) (v : Nat) (rb cm : Option Err)
    (hc : ctx 0 = false) (h0 : 0 ≤ cfg.attempts) :
    (WithTransaction ctx ctxErr cfg
        (fun _ => ⟨none, none, .panics v, rb, cm⟩)).result = .panicked v
    ∧ (txAttempt ⟨none, none, .panics v, rb, cm⟩).rolledBack = true
    ∧ (txAttempt ⟨none, none, .panics v, rb, cm⟩).rollbackFailureLogged
      = rb.isSome := by
  have hop : (fun i => (txAttempt ((fun _ : Nat =>
      (⟨none, none, .panics v, rb, cm⟩ : TxEnv)) i)).result) 0
      = .panicked v := rfl
  have h := withRetry_first_panicked ctx ctxErr cfg
    (fun i => (txAttempt ((fun _ : Nat =>
      (⟨none, none, .panics v, rb, cm⟩ : TxEnv)) i)).result) v hc h0 hop
  refine ⟨?_, rfl, rfl⟩
  show (withRetry ctx ctxErr cfg _).result = _
  rw [h]

/-- Witness for C2 at a concrete input (panic value 7, failing rollback). -/
theorem transaction_panic_rollback_repropagate_witness :
    (WithTransaction (fun _ => false) .canceled ⟨1, 1, 1⟩
        (fun _ => ⟨none, none, .panics 7,
          some (.plain "rollback failed" none), none⟩)).result = .panicked 7
    ∧ (txAttempt ⟨none, none, .panics 7,
        some (.plain "rollback failed" none), none⟩).rolledBack = true := by
  have h := transaction_panic_rollback_repropagate (fun _ => false) .canceled
    ⟨1, 1, 1⟩ 7 (some (.plain "rollback failed" none)) none rfl (by decide)
  exact ⟨h.1, h.2.1⟩

end DbKit
